import Mathlib

/-!
Verification of the messaging backend (FastAPI + SQLAlchemy app in `app/`).

Shallow embedding conventions:
* UUIDs are modelled as `Nat` (fresh identifiers are passed in as parameters,
  standing for `uuid.uuid4()` calls); `datetime` values are modelled as `Nat`
  (the current time is passed in as a `now` parameter).
* The three SQLAlchemy tables (`users`, `messages`, `message_recipients` in
  `app/models.py`) are lists of records inside a `DB` value.
* Each route handler of `app/routes.py` becomes a function
  `DB → ... → Except ApiError α × DB`: the second component is the database
  state after the request.  SQLAlchemy sessions only persist on `commit`;
  handlers that raise before committing (or that call `rollback`) leave the
  store unchanged, which the embedding renders by returning the input `DB`
  on every error path.
* `raise HTTPException(status_code=s, detail=d)` becomes
  `.error (.http s d)`; a Pydantic validation failure while building a
  response object becomes `.error (.validationError field)`.
-/

namespace MessagingApp

/-- Row of the `users` table (`app/models.py`, class `User`). -/
structure User where
  id : Nat
  email : String
  name : String
  created_at : Nat
deriving Repr, DecidableEq

/-- Row of the `messages` table (`app/models.py`, class `Message`). -/
structure Message where
  id : Nat
  sender_id : Nat
  subject : Option String
  content : String
  timestamp : Nat
deriving Repr, DecidableEq

/-- Row of the `message_recipients` table (`app/models.py`,
class `MessageRecipient`): `read` defaults to `false`, `read_at` is nullable. -/
structure MessageRecipient where
  id : Nat
  message_id : Nat
  recipient_id : Nat
  read : Bool
  read_at : Option Nat
deriving Repr, DecidableEq

/-- The persisted state: the three relations. -/
structure DB where
  users : List User
  messages : List Message
  message_recipients : List MessageRecipient
deriving Repr, DecidableEq

/-- Errors a handler can surface: `http s d` models
`HTTPException(status_code=s, detail=d)`; `validationError f` models a Pydantic
`ValidationError` raised while constructing a response model whose required
field `f` received `None`. -/
inductive ApiError where
  | http (status : Nat) (detail : String)
  | validationError (field : String)
deriving Repr, DecidableEq

/-- `select(User).filter(User.id == uid) ... .first()`. -/
def findUserById (users : List User) (uid : Nat) : Option User :=
  users.find? (fun u => u.id == uid)

/-- `select(User).filter(User.email == e) ... .first()`. -/
def findUserByEmail (users : List User) (e : String) : Option User :=
  users.find? (fun u => u.email == e)

/-- `create_user` (`app/routes.py` lines 27-42): reject an already-registered
email before any write, otherwise insert a fresh `User` row and return it. -/
def create_user (db : DB) (email name : String) (new_user_id now : Nat) :
    Except ApiError User × DB :=
  match findUserByEmail db.users email with
  | some _ => (.error (.http 400 "Email already registered."), db)
  | none =>
    let db_user : User := { id := new_user_id, email := email, name := name, created_at := now }
    (.ok db_user, { db with users := db.users ++ [db_user] })

/-- `read_user` (`app/routes.py` lines 45-53). -/
def read_user (db : DB) (user_id : Nat) : Except ApiError User × DB :=
  match findUserById db.users user_id with
  | none => (.error (.http 404 "User not found."), db)
  | some db_user => (.ok db_user, db)

/-- `read_users` (`app/routes.py` lines 56-62): `offset(skip).limit(limit)`. -/
def read_users (db : DB) (skip limit : Nat) : Except ApiError (List User) × DB :=
  (.ok ((db.users.drop skip).take limit), db)

/-- The recipient loop of `create_message` (`app/routes.py` lines 101-113):
look up each recipient id in order; on the first one that does not resolve,
fail (the handler rolls the session back there); otherwise stage one
`MessageRecipient` row per list element, with `read = false`, `read_at = none`
(the model defaults), and a fresh primary key per row. -/
def insertRecipients (users : List User) (message_id : Nat) :
    List Nat → Nat → Except ApiError (List MessageRecipient)
  | [], _ => .ok []
  | recipient_id :: rest, fresh =>
    match findUserById users recipient_id with
    | none =>
      .error (.http 404 ("Recipient with ID " ++ toString recipient_id ++ " not found."))
    | some _ =>
      (insertRecipients users message_id rest (fresh + 1)).map
        (fun tail =>
          { id := fresh, message_id := message_id, recipient_id := recipient_id,
            read := false, read_at := none } :: tail)

/-- `create_message` (`app/routes.py` lines 74-117): validate the sender,
build the `Message` row, reject an empty recipient list before any recipient
lookup, then run the recipient loop; everything is committed as one unit at
the end, so any failure leaves the store untouched. -/
def create_message (db : DB) (sender_id : Nat) (subject : Option String)
    (content : String) (recipient_ids : List Nat)
    (new_message_id fresh now : Nat) : Except ApiError Message × DB :=
  match findUserById db.users sender_id with
  | none => (.error (.http 404 "Sender not found."), db)
  | some _ =>
    let db_message : Message :=
      { id := new_message_id, sender_id := sender_id, subject := subject,
        content := content, timestamp := now }
    if recipient_ids.isEmpty then
      (.error (.http 400 "Message must have at least one recipient."), db)
    else
      match insertRecipients db.users new_message_id recipient_ids fresh with
      | .error e => (.error e, db)
      | .ok entries =>
        (.ok db_message,
          { db with
            messages := db.messages ++ [db_message],
            message_recipients := db.message_recipients ++ entries })

/-- `get_sent_messages` (`app/routes.py` lines 124-136). -/
def get_sent_messages (db : DB) (user_id : Nat) : Except ApiError (List Message) × DB :=
  match findUserById db.users user_id with
  | none => (.error (.http 404 "User not found."), db)
  | some _ => (.ok (db.messages.filter (fun m => m.sender_id == user_id)), db)

/-- Response shape `MessageInboxItem` (`app/schemas.py` lines 71-77).  Note
that the `sender` field is annotated as a required `User`, not `Optional`. -/
structure MessageInboxItem where
  id : Nat
  sender_id : Nat
  subject : Option String
  content : String
  timestamp : Nat
  recipient_entry_id : Nat
  read : Bool
  read_at : Option Nat
  sender : User
deriving Repr, DecidableEq

/-- Pydantic construction of a `MessageInboxItem`: because `sender : User` is
a required field, passing `None` for it raises a `ValidationError`. -/
def mkMessageInboxItem (id sender_id : Nat) (subject : Option String)
    (content : String) (timestamp recipient_entry_id : Nat) (read : Bool)
    (read_at : Option Nat) (sender : Option User) :
    Except ApiError MessageInboxItem :=
  match sender with
  | some s =>
    .ok { id := id, sender_id := sender_id, subject := subject, content := content,
          timestamp := timestamp, recipient_entry_id := recipient_entry_id,
          read := read, read_at := read_at, sender := s }
  | none => .error (.validationError "sender")

/-- The join
`select(Message, MessageRecipient).join(... Message.id == MessageRecipient.message_id)
.filter(MessageRecipient.recipient_id == user_id)` used by the inbox routes. -/
def joinInbox (db : DB) (user_id : Nat) : List (Message × MessageRecipient) :=
  db.messages.flatMap (fun m =>
    (db.message_recipients.filter
      (fun r => m.id == r.message_id && r.recipient_id == user_id)).map
      (fun r => (m, r)))

/-- The same join with the extra `MessageRecipient.read == False` filter used
by `get_unread_inbox_messages` (`app/routes.py` lines 200-211). -/
def joinInboxUnread (db : DB) (user_id : Nat) : List (Message × MessageRecipient) :=
  db.messages.flatMap (fun m =>
    (db.message_recipients.filter
      (fun r => m.id == r.message_id && r.recipient_id == user_id && r.read == false)).map
      (fun r => (m, r)))

/-- The projection loop shared by both inbox routes (`app/routes.py`
lines 164-184 and 215-234): for each `(message, recipient_entry)` row, the
`joinedload`ed `message.sender` is looked up, `sender_schema` is `None` when
it is absent, and a `MessageInboxItem` is built (which raises on a `None`
sender, ending the request there). -/
def buildInboxItems (users : List User) :
    List (Message × MessageRecipient) → Except ApiError (List MessageInboxItem)
  | [] => .ok []
  | (message, recipient_entry) :: rest =>
    match mkMessageInboxItem message.id message.sender_id message.subject
      message.content message.timestamp recipient_entry.id recipient_entry.read
      recipient_entry.read_at (findUserById users message.sender_id) with
    | .error e => .error e
    | .ok item =>
      match buildInboxItems users rest with
      | .error e => .error e
      | .ok tail => .ok (item :: tail)

/-- `get_inbox_messages` (`app/routes.py` lines 143-184). -/
def get_inbox_messages (db : DB) (user_id : Nat) :
    Except ApiError (List MessageInboxItem) × DB :=
  match findUserById db.users user_id with
  | none => (.error (.http 404 "User not found."), db)
  | some _ => (buildInboxItems db.users (joinInbox db user_id), db)

/-- `get_unread_inbox_messages` (`app/routes.py` lines 191-234). -/
def get_unread_inbox_messages (db : DB) (user_id : Nat) :
    Except ApiError (List MessageInboxItem) × DB :=
  match findUserById db.users user_id with
  | none => (.error (.http 404 "User not found."), db)
  | some _ => (buildInboxItems db.users (joinInboxUnread db user_id), db)

/-- One row of the `get_message_recipient` response (`app/routes.py`
lines 256-267). -/
structure RecipientStatusEntry where
  recipient_entry_id : Nat
  recipient_id : Nat
  recipient_name : String
  recipient_email : String
  read : Bool
  read_at : Option Nat
deriving Repr, DecidableEq

/-- `get_message_recipient` (`app/routes.py` lines 237-268): inner join of the
message's delivery records with `users` (rows whose recipient id does not
resolve are dropped by the join). -/
def get_message_recipient (db : DB) (message_id : Nat) :
    Except ApiError (List RecipientStatusEntry) × DB :=
  match db.messages.find? (fun m => m.id == message_id) with
  | none => (.error (.http 404 "Message not found."), db)
  | some _ =>
    let rows :=
      (db.message_recipients.filter (fun r => r.message_id == message_id)).filterMap
        (fun r => (findUserById db.users r.recipient_id).map
          (fun u =>
            ({ recipient_entry_id := r.id, recipient_id := u.id,
               recipient_name := u.name, recipient_email := u.email,
               read := r.read, read_at := r.read_at } : RecipientStatusEntry)))
    (.ok rows, db)

/-- `mark_message_as_read` (`app/routes.py` lines 275-294): 404 when the
delivery record does not exist; when it is unread, set `read := true` and
`read_at := now` and commit; when already read, change nothing and return the
existing record. -/
def mark_message_as_read (db : DB) (recipient_entry_id now : Nat) :
    Except ApiError MessageRecipient × DB :=
  match db.message_recipients.find? (fun r => r.id == recipient_entry_id) with
  | none => (.error (.http 404 "Message recipient entry not found."), db)
  | some db_recipient_entry =>
    if !db_recipient_entry.read then
      let updated := { db_recipient_entry with read := true, read_at := some now }
      (.ok updated,
        { db with
          message_recipients := db.message_recipients.map
            (fun r => if r.id == recipient_entry_id then updated else r) })
    else
      (.ok db_recipient_entry, db)

/-- `read_message` (`app/routes.py` lines 299-308). -/
def read_message (db : DB) (message_id : Nat) : Except ApiError Message × DB :=
  match db.messages.find? (fun m => m.id == message_id) with
  | none => (.error (.http 404 "Message not found."), db)
  | some db_message => (.ok db_message, db)

/-- One public request: the state transition of any endpoint of
`app/routes.py` (read endpoints included; they do not change the store). -/
inductive Step : DB → DB → Prop where
  | createUser (db : DB) (email name : String) (new_user_id now : Nat) :
      Step db (create_user db email name new_user_id now).2
  | readUser (db : DB) (user_id : Nat) : Step db (read_user db user_id).2
  | readUsers (db : DB) (skip limit : Nat) : Step db (read_users db skip limit).2
  | createMessage (db : DB) (sender_id : Nat) (subject : Option String)
      (content : String) (recipient_ids : List Nat) (new_message_id fresh now : Nat) :
      Step db (create_message db sender_id subject content recipient_ids
        new_message_id fresh now).2
  | sentMessages (db : DB) (user_id : Nat) : Step db (get_sent_messages db user_id).2
  | inbox (db : DB) (user_id : Nat) : Step db (get_inbox_messages db user_id).2
  | unreadInbox (db : DB) (user_id : Nat) :
      Step db (get_unread_inbox_messages db user_id).2
  | recipientStatus (db : DB) (message_id : Nat) :
      Step db (get_message_recipient db message_id).2
  | markRead (db : DB) (recipient_entry_id now : Nat) :
      Step db (mark_message_as_read db recipient_entry_id now).2
  | readMessage (db : DB) (message_id : Nat) : Step db (read_message db message_id).2

/-- The empty store. -/
def DB.empty : DB := { users := [], messages := [], message_recipients := [] }

/-- States reachable from the empty store through public requests. -/
inductive Reachable : DB → Prop where
  | init : Reachable DB.empty
  | step {db db' : DB} : Reachable db → Step db db' → Reachable db'

/-! ### Concrete stores used by witnesses and counterexamples -/

/-- Alice (id 1) and Bob (id 2), created through the API. -/
def dbUsers : DB :=
  (create_user (create_user DB.empty "alice@example.com" "Alice" 1 0).2
    "bob@example.com" "Bob" 2 0).2

/-- Alice sends one message (id 10) to Bob; the delivery record gets id 20. -/
def dbOneMsg : DB := (create_message dbUsers 1 none "hello" [2] 10 20 5).2

/-- Bob's delivery record marked read at time 9. -/
def dbRead : DB := (mark_message_as_read dbOneMsg 20 9).2

/-- Alice sends one message (id 10) with Bob listed twice in the recipient
list. -/
def dbDup : DB := (create_message dbUsers 1 none "hello" [2, 2] 10 20 5).2

/-- A store holding a message whose `sender_id` (99) resolves to no user,
with a delivery record addressed to the existing user 2 (possible when the
database does not enforce the foreign key, e.g. the SQLite test setup). -/
def dbDangling : DB :=
  { users := [{ id := 2, email := "bob@example.com", name := "Bob", created_at := 0 }],
    messages := [{ id := 10, sender_id := 99, subject := none, content := "x", timestamp := 0 }],
    message_recipients :=
      [{ id := 20, message_id := 10, recipient_id := 2, read := false, read_at := none }] }

/-! ### Generic list lemmas used throughout -/

theorem find?_append_left {α : Type} (p : α → Bool) {l₁ : List α} (l₂ : List α)
    {a : α} (h : l₁.find? p = some a) : (l₁ ++ l₂).find? p = some a := by
  induction l₁ with
  | nil => simp at h
  | cons x l ih =>
    by_cases hx : p x = true
    · simp only [List.find?_cons, hx] at h
      simp only [List.cons_append, List.find?_cons, hx]
      exact h
    · have hx' : p x = false := by simpa using hx
      simp only [List.find?_cons, hx'] at h
      simp only [List.cons_append, List.find?_cons, hx']
      exact ih h

theorem find?_append_none {α : Type} (p : α → Bool) {l₁ : List α} (l₂ : List α)
    (h : l₁.find? p = none) : (l₁ ++ l₂).find? p = l₂.find? p := by
  induction l₁ with
  | nil => simp
  | cons x l ih =>
    by_cases hx : p x = true
    · simp only [List.find?_cons, hx] at h
      exact absurd h (by simp)
    · have hx' : p x = false := by simpa using hx
      simp only [List.find?_cons, hx'] at h
      simp only [List.cons_append, List.find?_cons, hx']
      exact ih h

/-! ### Facts about `mark_message_as_read` -/

/-- Updating the rows whose primary key is `eid` keeps the first such row
locatable: `find?` afterwards returns the updated row. -/
theorem find?_map_update (l : List MessageRecipient) (eid : Nat)
    {e : MessageRecipient} (upd : MessageRecipient)
    (hfind : l.find? (fun r => r.id == eid) = some e) (hid : upd.id = eid) :
    (l.map (fun r => if r.id == eid then upd else r)).find? (fun r => r.id == eid)
      = some upd := by
  induction l with
  | nil => simp at hfind
  | cons a l ih =>
    by_cases ha : (a.id == eid) = true
    · simp only [List.map_cons, if_pos ha]
      simp only [List.find?_cons, show (upd.id == eid) = true by simp [hid]]
    · have ha' : (a.id == eid) = false := by simpa using ha
      simp only [List.map_cons, ha', Bool.false_eq_true, if_false]
      simp only [List.find?_cons, ha'] at hfind
      simp only [List.find?_cons, ha']
      exact ih hfind

/-- Updating rows under a key different from `i` does not disturb the first
row with key `i`. -/
theorem find?_map_update_ne (l : List MessageRecipient) (i j : Nat)
    {e : MessageRecipient} (upd : MessageRecipient)
    (hfind : l.find? (fun r => r.id == i) = some e)
    (hij : i ≠ j) (hupd : upd.id = j) :
    (l.map (fun r => if r.id == j then upd else r)).find? (fun r => r.id == i)
      = some e := by
  induction l with
  | nil => simp at hfind
  | cons a l ih =>
    by_cases ha : (a.id == i) = true
    · simp only [List.find?_cons, ha] at hfind
      have ha2 : a.id = i := by simpa using ha
      have haj : (a.id == j) = false := by
        simp only [beq_eq_false_iff_ne, ha2]
        exact hij
      simp only [List.map_cons, haj, Bool.false_eq_true, if_false]
      simp only [List.find?_cons, ha]
      exact hfind
    · have ha' : (a.id == i) = false := by simpa using ha
      simp only [List.find?_cons, ha'] at hfind
      by_cases haj : (a.id == j) = true
      · simp only [List.map_cons, if_pos haj]
        have hui : (upd.id == i) = false := by
          simp only [beq_eq_false_iff_ne, hupd]
          exact fun hc => hij hc.symm
        simp only [List.find?_cons, hui]
        exact ih hfind
      · have haj' : (a.id == j) = false := by simpa using haj
        simp only [List.map_cons, haj', Bool.false_eq_true, if_false]
        simp only [List.find?_cons, ha']
        exact ih hfind

/-! ### Facts about the recipient loop of `create_message` -/

theorem insertRecipients_ok_of_all_found (users : List User) (mid : Nat)
    (rids : List Nat) (h : ∀ r ∈ rids, (findUserById users r).isSome) :
    ∀ fresh : Nat, ∃ entries : List MessageRecipient,
      insertRecipients users mid rids fresh = .ok entries ∧
      entries.map MessageRecipient.recipient_id = rids ∧
      ∀ e ∈ entries, e.message_id = mid ∧ e.read = false ∧ e.read_at = none := by
  induction rids with
  | nil =>
    intro fresh
    exact ⟨[], rfl, rfl, by simp⟩
  | cons rid rest ih =>
    intro fresh
    obtain ⟨u, hu⟩ := Option.isSome_iff_exists.mp (h rid (by simp))
    obtain ⟨tail, htail, hmap, hall⟩ := ih (fun r hr => h r (by simp [hr])) (fresh + 1)
    refine ⟨{ id := fresh, message_id := mid, recipient_id := rid,
              read := false, read_at := none } :: tail, ?_, ?_, ?_⟩
    · simp only [insertRecipients, hu, htail, Except.map]
    · simp [hmap]
    · intro e he
      rcases List.mem_cons.mp he with rfl | he'
      · exact ⟨rfl, rfl, rfl⟩
      · exact hall e he'

theorem insertRecipients_first_missing (users : List User) (mid : Nat)
    (good : List Nat) (bad : Nat) (rest : List Nat)
    (hgood : ∀ r ∈ good, (findUserById users r).isSome)
    (hbad : findUserById users bad = none) :
    ∀ fresh : Nat, insertRecipients users mid (good ++ bad :: rest) fresh =
      .error (.http 404 ("Recipient with ID " ++ toString bad ++ " not found.")) := by
  induction good with
  | nil =>
    intro fresh
    simp [insertRecipients, hbad]
  | cons a l ih =>
    intro fresh
    obtain ⟨u, hu⟩ := Option.isSome_iff_exists.mp (hgood a (by simp))
    have hrec := ih (fun r hr => hgood r (by simp [hr])) (fresh + 1)
    simp only [List.cons_append, insertRecipients, hu, List.append_eq, hrec, Except.map]

/-- Delivery records that all carry `message_id = mid`: filtering them for
`(mid, rid)` counts the occurrences of `rid` among their recipient ids. -/
theorem length_filter_eq_count (mid rid : Nat) (entries : List MessageRecipient)
    (hm : ∀ e ∈ entries, e.message_id = mid) :
    (entries.filter (fun r => r.message_id == mid && r.recipient_id == rid)).length
      = (entries.map MessageRecipient.recipient_id).count rid := by
  induction entries with
  | nil => simp
  | cons a l ih =>
    have ha : (a.message_id == mid) = true := by simp [hm a (by simp)]
    have hl : ∀ e ∈ l, e.message_id = mid := fun e he => hm e (List.mem_cons_of_mem a he)
    simp only [List.filter_cons, List.map_cons, List.count_cons, ha, Bool.true_and]
    by_cases har : (a.recipient_id == rid) = true
    · simp [har, ih hl]
    · simp [har, ih hl]

/-- Any successful run of the recipient loop yields entries that belong to
the new message and are unread. -/
theorem insertRecipients_ok_mem (users : List User) (mid : Nat) :
    ∀ (rids : List Nat) (fresh : Nat) (entries : List MessageRecipient),
      insertRecipients users mid rids fresh = .ok entries →
      ∀ e ∈ entries, e.message_id = mid ∧ e.read = false ∧ e.read_at = none := by
  intro rids
  induction rids with
  | nil =>
    intro fresh entries h e he
    simp only [insertRecipients] at h
    cases h
    simp at he
  | cons rid rest ih =>
    intro fresh entries h e he
    simp only [insertRecipients] at h
    cases hfind : findUserById users rid with
    | none =>
      rw [hfind] at h
      exact absurd h (by simp)
    | some u =>
      rw [hfind] at h
      cases hrec : insertRecipients users mid rest (fresh + 1) with
      | error err =>
        rw [hrec] at h
        exact absurd h (by simp [Except.map])
      | ok tail =>
        rw [hrec] at h
        simp only [Except.map, Except.ok.injEq] at h
        subst h
        rcases List.mem_cons.mp he with rfl | he'
        · exact ⟨rfl, rfl, rfl⟩
        · exact ih (fresh + 1) tail hrec e he'

/-! ### State-shape lemmas for the three mutating endpoints and frame lemmas
for the read endpoints -/

theorem create_user_state_cases (db : DB) (e n : String) (i t : Nat) :
    (create_user db e n i t).2 = db ∨
    (create_user db e n i t).2 =
      { db with users := db.users ++ [{ id := i, email := e, name := n, created_at := t }] } := by
  unfold create_user
  cases findUserByEmail db.users e with
  | some _ => exact Or.inl rfl
  | none => exact Or.inr rfl

theorem create_message_state_cases (db : DB) (sid : Nat) (subj : Option String)
    (content : String) (rids : List Nat) (mid fresh now : Nat) :
    (create_message db sid subj content rids mid fresh now).2 = db ∨
    ((findUserById db.users sid).isSome ∧
     ∃ entries : List MessageRecipient,
       (create_message db sid subj content rids mid fresh now).2 =
         { db with
           messages := db.messages ++
             [{ id := mid, sender_id := sid, subject := subj,
                content := content, timestamp := now }],
           message_recipients := db.message_recipients ++ entries } ∧
       ∀ e ∈ entries, e.message_id = mid ∧ e.read = false ∧ e.read_at = none) := by
  unfold create_message
  cases hs : findUserById db.users sid with
  | none => exact Or.inl rfl
  | some u =>
    cases hne : rids.isEmpty with
    | true => exact Or.inl rfl
    | false =>
      cases hrec : insertRecipients db.users mid rids fresh with
      | error err => exact Or.inl rfl
      | ok entries =>
        refine Or.inr ⟨by simp [hs], entries, rfl, ?_⟩
        exact insertRecipients_ok_mem db.users mid rids fresh entries hrec

theorem mark_state_cases (db : DB) (eid now : Nat) :
    (mark_message_as_read db eid now).2 = db ∨
    ∃ e : MessageRecipient,
      db.message_recipients.find? (fun r => r.id == eid) = some e ∧ e.read = false ∧
      (mark_message_as_read db eid now).2 =
        { db with
          message_recipients := db.message_recipients.map fun r =>
            if r.id == eid then { e with read := true, read_at := some now } else r } := by
  cases hf : db.message_recipients.find? (fun r => r.id == eid) with
  | none =>
    left
    simp [mark_message_as_read, hf]
  | some e =>
    cases he : e.read with
    | false =>
      right
      refine ⟨e, rfl, he, ?_⟩
      simp [mark_message_as_read, hf, he]
    | true =>
      left
      simp [mark_message_as_read, hf, he]

theorem read_user_frame (db : DB) (i : Nat) : (read_user db i).2 = db := by
  unfold read_user
  cases findUserById db.users i <;> rfl

theorem read_users_frame (db : DB) (s l : Nat) : (read_users db s l).2 = db := rfl

theorem read_message_frame (db : DB) (i : Nat) : (read_message db i).2 = db := by
  unfold read_message
  cases db.messages.find? (fun m => m.id == i) <;> rfl

theorem get_sent_messages_frame (db : DB) (i : Nat) :
    (get_sent_messages db i).2 = db := by
  unfold get_sent_messages
  cases findUserById db.users i <;> rfl

theorem get_inbox_messages_frame (db : DB) (i : Nat) :
    (get_inbox_messages db i).2 = db := by
  unfold get_inbox_messages
  cases findUserById db.users i <;> rfl

theorem get_unread_inbox_messages_frame (db : DB) (i : Nat) :
    (get_unread_inbox_messages db i).2 = db := by
  unfold get_unread_inbox_messages
  cases findUserById db.users i <;> rfl

theorem get_message_recipient_frame (db : DB) (i : Nat) :
    (get_message_recipient db i).2 = db := by
  unfold get_message_recipient
  cases db.messages.find? (fun m => m.id == i) <;> rfl

/-! ### Invariants preserved by every step -/

/-- A record found by primary key in `users` is still found after rows are
appended. -/
theorem findUserById_append_isSome (users l2 : List User) (i : Nat)
    (h : (findUserById users i).isSome) :
    (findUserById (users ++ l2) i).isSome := by
  obtain ⟨u, hu⟩ := Option.isSome_iff_exists.mp h
  unfold findUserById at hu ⊢
  rw [find?_append_left _ l2 hu]
  rfl

/-- One public request preserves "read_at is set exactly when read is
true" across all delivery records. -/
theorem step_preserves_read_iff {db db' : DB} (hstep : Step db db')
    (hinv : ∀ r ∈ db.message_recipients, r.read_at.isSome = r.read) :
    ∀ r ∈ db'.message_recipients, r.read_at.isSome = r.read := by
  cases hstep with
  | createUser email name nid now =>
    rcases create_user_state_cases db email name nid now with hc | hc <;>
      rw [hc] <;> exact hinv
  | createMessage sid subj content rids mid fresh now =>
    rcases create_message_state_cases db sid subj content rids mid fresh now with
      hc | ⟨hsender, entries, hc, hall⟩
    · rw [hc]
      exact hinv
    · rw [hc]
      intro r hr
      rcases List.mem_append.mp hr with hold | hnew
      · exact hinv r hold
      · obtain ⟨hmid, hread, hat⟩ := hall r hnew
        rw [hread, hat]
        rfl
  | markRead eid now =>
    rcases mark_state_cases db eid now with hc | ⟨e, hfind, hread, hc⟩
    · rw [hc]
      exact hinv
    · rw [hc]
      intro r hr
      obtain ⟨a, ha, hfa⟩ := List.mem_map.mp hr
      by_cases hid : (a.id == eid) = true
      · rw [if_pos hid] at hfa
        rw [← hfa]
        rfl
      · rw [if_neg hid] at hfa
        rw [← hfa]
        exact hinv a ha
  | readUser i =>
    rw [read_user_frame]
    exact hinv
  | readUsers s l =>
    rw [read_users_frame]
    exact hinv
  | readMessage i =>
    rw [read_message_frame]
    exact hinv
  | sentMessages i =>
    rw [get_sent_messages_frame]
    exact hinv
  | inbox i =>
    rw [get_inbox_messages_frame]
    exact hinv
  | unreadInbox i =>
    rw [get_unread_inbox_messages_frame]
    exact hinv
  | recipientStatus i =>
    rw [get_message_recipient_frame]
    exact hinv

/-- One public request preserves "every persisted message's sender resolves
to a user". -/
theorem step_preserves_senders {db db' : DB} (hstep : Step db db')
    (hinv : ∀ m ∈ db.messages, (findUserById db.users m.sender_id).isSome) :
    ∀ m ∈ db'.messages, (findUserById db'.users m.sender_id).isSome := by
  cases hstep with
  | createUser email name nid now =>
    rcases create_user_state_cases db email name nid now with hc | hc
    · rw [hc]
      exact hinv
    · rw [hc]
      intro m hm
      exact findUserById_append_isSome db.users _ m.sender_id (hinv m hm)
  | createMessage sid subj content rids mid fresh now =>
    rcases create_message_state_cases db sid subj content rids mid fresh now with
      hc | ⟨hsender, entries, hc, hall⟩
    · rw [hc]
      exact hinv
    · rw [hc]
      intro m hm
      rcases List.mem_append.mp hm with hold | hnew
      · exact hinv m hold
      · rcases List.mem_singleton.mp hnew with rfl
        exact hsender
  | markRead eid now =>
    rcases mark_state_cases db eid now with hc | ⟨e, hfind, hread, hc⟩ <;>
      rw [hc] <;> exact hinv
  | readUser i =>
    rw [read_user_frame]
    exact hinv
  | readUsers s l =>
    rw [read_users_frame]
    exact hinv
  | readMessage i =>
    rw [read_message_frame]
    exact hinv
  | sentMessages i =>
    rw [get_sent_messages_frame]
    exact hinv
  | inbox i =>
    rw [get_inbox_messages_frame]
    exact hinv
  | unreadInbox i =>
    rw [get_unread_inbox_messages_frame]
    exact hinv
  | recipientStatus i =>
    rw [get_message_recipient_frame]
    exact hinv

/-- In every reachable state, each message's sender resolves. -/
theorem reachable_senders_exist {db : DB} (h : Reachable db) :
    ∀ m ∈ db.messages, (findUserById db.users m.sender_id).isSome := by
  induction h with
  | init => simp [DB.empty]
  | step hr hs ih => exact step_preserves_senders hs ih

/-- The marked store of the concrete scenario is reachable through public
requests. -/
theorem dbRead_reachable : Reachable dbRead :=
  Reachable.step (Reachable.step (Reachable.step (Reachable.step Reachable.init
    (Step.createUser DB.empty "alice@example.com" "Alice" 1 0))
    (Step.createUser (create_user DB.empty "alice@example.com" "Alice" 1 0).2
      "bob@example.com" "Bob" 2 0))
    (Step.createMessage dbUsers 1 none "hello" [2] 10 20 5))
    (Step.markRead dbOneMsg 20 9)

/-! ### The unread inbox as a filter of the inbox -/

/-- Per message, the extra `read == False` SQL filter commutes with the
projection to `(message, recipient_entry)` rows. -/
theorem filter_unread_per_message (m : Message) (u : Nat)
    (rs : List MessageRecipient) :
    (rs.filter (fun r => m.id == r.message_id && r.recipient_id == u
        && r.read == false)).map (fun r => (m, r))
      = ((rs.filter (fun r => m.id == r.message_id && r.recipient_id == u)).map
          (fun r => (m, r))).filter (fun p => p.2.read == false) := by
  induction rs with
  | nil => rfl
  | cons r rtail ih =>
    simp only [beq_false] at ih
    cases hA : m.id == r.message_id <;>
      cases hB : r.recipient_id == u <;>
        cases hC : r.read <;>
          simp [List.filter_cons, hA, hB, hC, ih]

theorem join_unread_aux (rs : List MessageRecipient) (u : Nat) :
    ∀ ms : List Message,
      (ms.flatMap fun m =>
        (rs.filter (fun r => m.id == r.message_id && r.recipient_id == u
          && r.read == false)).map (fun r => (m, r)))
      = (ms.flatMap fun m =>
          (rs.filter (fun r => m.id == r.message_id && r.recipient_id == u)).map
            (fun r => (m, r))).filter (fun p => p.2.read == false) := by
  intro ms
  induction ms with
  | nil => rfl
  | cons m tail ih =>
    simp only [List.flatMap_cons, List.filter_append]
    rw [ih, filter_unread_per_message]

theorem joinInboxUnread_eq_filter (db : DB) (u : Nat) :
    joinInboxUnread db u = (joinInbox db u).filter (fun p => p.2.read == false) :=
  join_unread_aux db.message_recipients u db.messages

/-- The projection loop maps a filtered row list to the matching filtered
item list (the projected `read` field is copied from the delivery record). -/
theorem buildInboxItems_filter_read (users : List User) :
    ∀ (l : List (Message × MessageRecipient)) (items : List MessageInboxItem),
      buildInboxItems users l = .ok items →
      buildInboxItems users (l.filter (fun p => p.2.read == false)) =
        .ok (items.filter (fun i => i.read == false)) := by
  intro l
  induction l with
  | nil =>
    intro items h
    simp only [buildInboxItems] at h
    cases h
    rfl
  | cons p rest ih =>
    obtain ⟨m, r⟩ := p
    intro items h
    simp only [buildInboxItems] at h
    cases hs : findUserById users m.sender_id with
    | none =>
      rw [hs] at h
      simp [mkMessageInboxItem] at h
    | some s =>
      rw [hs] at h
      simp only [mkMessageInboxItem] at h
      cases hrest : buildInboxItems users rest with
      | error err =>
        rw [hrest] at h
        exact absurd h (by simp)
      | ok tail =>
        rw [hrest] at h
        simp only [Except.ok.injEq] at h
        subst h
        have hih := ih tail hrest
        simp only [beq_false] at hih
        cases hcr : r.read with
        | false =>
          simp [List.filter_cons, hcr, buildInboxItems, hs, mkMessageInboxItem, hih]
        | true =>
          simp [List.filter_cons, hcr, buildInboxItems, hs, mkMessageInboxItem, hih]

/-- When every joined message's sender resolves, the projection loop cannot
fail. -/
theorem buildInboxItems_ok_of_senders (users : List User) :
    ∀ l : List (Message × MessageRecipient),
      (∀ p ∈ l, (findUserById users p.1.sender_id).isSome) →
      ∃ items, buildInboxItems users l = .ok items := by
  intro l
  induction l with
  | nil => exact fun _ => ⟨[], rfl⟩
  | cons p rest ih =>
    intro h
    obtain ⟨m, r⟩ := p
    obtain ⟨s, hs⟩ := Option.isSome_iff_exists.mp (h (m, r) (by simp))
    obtain ⟨tail, htail⟩ := ih (fun q hq => h q (by simp [hq]))
    refine ⟨{ id := m.id, sender_id := m.sender_id, subject := m.subject,
              content := m.content, timestamp := m.timestamp,
              recipient_entry_id := r.id, read := r.read, read_at := r.read_at,
              sender := s } :: tail, ?_⟩
    simp [buildInboxItems, hs, mkMessageInboxItem, htail]

/-- Every row of the inbox join carries a message of the store. -/
theorem joinInbox_mem_messages (db : DB) (u : Nat) :
    ∀ p ∈ joinInbox db u, p.1 ∈ db.messages := by
  intro p hp
  unfold joinInbox at hp
  obtain ⟨m, hm, hmem⟩ := List.mem_flatMap.mp hp
  obtain ⟨r, hr, hpr⟩ := List.mem_map.mp hmem
  rw [← hpr]
  exact hm

/-! ### Claim theorems -/

/-- C10: every read endpoint — get user, list users, get message, sent
messages, inbox, unread inbox, per-message recipient status — returns the
persisted state unchanged, whether it succeeds or fails with a 404; only
`create_user`, `create_message` and `mark_message_as_read` can change rows. -/
theorem read_endpoints_preserve_state :
    ∀ (db : DB) (i skip limit : Nat),
      (read_user db i).2 = db ∧
      (read_users db skip limit).2 = db ∧
      (read_message db i).2 = db ∧
      (get_sent_messages db i).2 = db ∧
      (get_inbox_messages db i).2 = db ∧
      (get_unread_inbox_messages db i).2 = db ∧
      (get_message_recipient db i).2 = db := by
  intro db i skip limit
  refine ⟨?_, rfl, ?_, ?_, ?_, ?_, ?_⟩
  · unfold read_user
    cases findUserById db.users i <;> rfl
  · unfold read_message
    cases db.messages.find? (fun m => m.id == i) <;> rfl
  · unfold get_sent_messages
    cases findUserById db.users i <;> rfl
  · unfold get_inbox_messages
    cases findUserById db.users i <;> rfl
  · unfold get_unread_inbox_messages
    cases findUserById db.users i <;> rfl
  · unfold get_message_recipient
    cases db.messages.find? (fun m => m.id == i) <;> rfl

/-- C9: when no existing user has email `e`, creating a user with `e`
succeeds, afterwards exactly one user row carries `e`, and a second create
with `e` fails with 400 "Email already registered." before any write,
leaving the store exactly as after the first call. -/
theorem create_user_duplicate_email (db : DB) (e n1 n2 : String)
    (id1 t1 id2 t2 : Nat) (h : ∀ u ∈ db.users, u.email ≠ e) :
    (create_user db e n1 id1 t1).1
        = .ok { id := id1, email := e, name := n1, created_at := t1 } ∧
    (((create_user db e n1 id1 t1).2).users.filter (fun u => u.email == e)).length = 1 ∧
    create_user (create_user db e n1 id1 t1).2 e n2 id2 t2 =
      (.error (.http 400 "Email already registered."), (create_user db e n1 id1 t1).2) := by
  have hnone : findUserByEmail db.users e = none := by
    unfold findUserByEmail
    rw [List.find?_eq_none]
    intro u hu
    simp [h u hu]
  have h1 : create_user db e n1 id1 t1 =
      (.ok { id := id1, email := e, name := n1, created_at := t1 },
       { db with users :=
          db.users ++ [{ id := id1, email := e, name := n1, created_at := t1 }] }) := by
    simp [create_user, hnone]
  have hfil : db.users.filter (fun u => u.email == e) = [] := by
    rw [List.filter_eq_nil_iff]
    intro u hu
    simp [h u hu]
  refine ⟨by rw [h1], ?_, ?_⟩
  · rw [h1]
    simp [List.filter_append, hfil]
  · rw [h1]
    have h2 : findUserByEmail
        (db.users ++ [{ id := id1, email := e, name := n1, created_at := t1 }]) e
        = some { id := id1, email := e, name := n1, created_at := t1 } := by
      unfold findUserByEmail at hnone ⊢
      rw [find?_append_none _ _ hnone]
      simp
    simp [create_user, h2]

/-- Witness for C9: duplicate email rejected on the empty store scenario. -/
theorem create_user_duplicate_email_witness :
    (∀ u ∈ DB.empty.users, u.email ≠ "alice@example.com") ∧
    ((create_user DB.empty "alice@example.com" "Alice" 1 0).1
        = .ok { id := 1, email := "alice@example.com", name := "Alice", created_at := 0 } ∧
     (((create_user DB.empty "alice@example.com" "Alice" 1 0).2).users.filter
        (fun u => u.email == "alice@example.com")).length = 1 ∧
     create_user (create_user DB.empty "alice@example.com" "Alice" 1 0).2
         "alice@example.com" "Alice Again" 3 1 =
       (.error (.http 400 "Email already registered."),
        (create_user DB.empty "alice@example.com" "Alice" 1 0).2)) :=
  ⟨by simp [DB.empty],
   create_user_duplicate_email DB.empty "alice@example.com" "Alice" "Alice Again"
     1 0 3 1 (by simp [DB.empty])⟩

/-- C6: with a resolving sender and an empty recipient list, `create_message`
fails with 400 "Message must have at least one recipient." (the emptiness
check precedes the recipient-lookup loop in the handler) and the store is
unchanged — in particular no Message row is persisted. -/
theorem create_message_empty_recipients (db : DB) (sender_id : Nat)
    (subject : Option String) (content : String) (mid fresh now : Nat)
    (h : (findUserById db.users sender_id).isSome) :
    create_message db sender_id subject content [] mid fresh now =
      (.error (.http 400 "Message must have at least one recipient."), db) := by
  obtain ⟨u, hu⟩ := Option.isSome_iff_exists.mp h
  simp [create_message, hu]

/-- Witness for C6 on the two-user store. -/
theorem create_message_empty_recipients_witness :
    ((findUserById dbUsers.users 1).isSome = true) ∧
    create_message dbUsers 1 none "hi" [] 10 20 5 =
      (.error (.http 400 "Message must have at least one recipient."), dbUsers) :=
  ⟨by decide, create_message_empty_recipients dbUsers 1 none "hi" 10 20 5 (by decide)⟩

/-- C4: `mark_message_as_read` is idempotent on an existing delivery record:
if the record is already read the handler mutates nothing and returns it
unchanged (no error), and a second call returns exactly the result and state
of the first call — same `read`, same `read_at`. -/
theorem mark_read_idempotent (db : DB) (eid t1 t2 : Nat) (e : MessageRecipient)
    (hfind : db.message_recipients.find? (fun r => r.id == eid) = some e) :
    (e.read = true → mark_message_as_read db eid t1 = (.ok e, db)) ∧
    mark_message_as_read (mark_message_as_read db eid t1).2 eid t2 =
      ((mark_message_as_read db eid t1).1, (mark_message_as_read db eid t1).2) := by
  have hpe : (e.id == eid) = true := by
    have h2 := List.find?_some hfind
    simpa using h2
  constructor
  · intro hread
    simp [mark_message_as_read, hfind, hread]
  · cases hread : e.read with
    | true =>
      have h1 : mark_message_as_read db eid t1 = (.ok e, db) := by
        simp [mark_message_as_read, hfind, hread]
      rw [h1]
      simp [mark_message_as_read, hfind, hread]
    | false =>
      have h1 : mark_message_as_read db eid t1 =
          (.ok ({ e with read := true, read_at := some t1 }),
           { db with
             message_recipients := db.message_recipients.map fun r =>
               if r.id == eid then { e with read := true, read_at := some t1 } else r }) := by
        simp [mark_message_as_read, hfind, hread]
      rw [h1]
      have hfind2 := find?_map_update db.message_recipients eid
        ({ e with read := true, read_at := some t1 }) hfind (by simpa using hpe)
      unfold mark_message_as_read
      rw [hfind2]
      simp

/-- Witness for C4: marking Bob's delivery record read twice. -/
theorem mark_read_idempotent_witness :
    (dbOneMsg.message_recipients.find? (fun r => r.id == 20) =
      some { id := 20, message_id := 10, recipient_id := 2, read := false, read_at := none }) ∧
    ((({ id := 20, message_id := 10, recipient_id := 2, read := false,
          read_at := none } : MessageRecipient).read = true →
        mark_message_as_read dbOneMsg 20 9 =
          (.ok { id := 20, message_id := 10, recipient_id := 2, read := false,
                 read_at := none }, dbOneMsg)) ∧
     mark_message_as_read (mark_message_as_read dbOneMsg 20 9).2 20 11 =
       ((mark_message_as_read dbOneMsg 20 9).1, (mark_message_as_read dbOneMsg 20 9).2)) :=
  ⟨by decide,
   mark_read_idempotent dbOneMsg 20 9 11
     { id := 20, message_id := 10, recipient_id := 2, read := false, read_at := none }
     (by decide)⟩

/-- C1: with a resolving sender, a `create_message` call whose recipient list
contains a non-resolving id fails with 404 "Recipient with ID {id} not
found." naming the first missing recipient, and the store is returned
unchanged: neither the Message row nor any delivery record staged for the
earlier, valid recipients is persisted (all-or-nothing). -/
theorem create_message_missing_recipient (db : DB) (sender_id : Nat)
    (subject : Option String) (content : String) (good : List Nat) (bad : Nat)
    (rest : List Nat) (mid fresh now : Nat)
    (hs : (findUserById db.users sender_id).isSome)
    (hgood : ∀ r ∈ good, (findUserById db.users r).isSome)
    (hbad : findUserById db.users bad = none) :
    create_message db sender_id subject content (good ++ bad :: rest) mid fresh now =
      (.error (.http 404 ("Recipient with ID " ++ toString bad ++ " not found.")), db) := by
  obtain ⟨u, hu⟩ := Option.isSome_iff_exists.mp hs
  have hne : (good ++ bad :: rest).isEmpty = false := by
    cases good <;> rfl
  have hrec := insertRecipients_first_missing db.users mid good bad rest hgood hbad fresh
  simp [create_message, hu, hne, hrec]

/-- Witness for C1: Alice sends to [Bob, 7] where user 7 does not exist. -/
theorem create_message_missing_recipient_witness :
    ((findUserById dbUsers.users 1).isSome = true) ∧
    (∀ r ∈ [2], (findUserById dbUsers.users r).isSome) ∧
    findUserById dbUsers.users 7 = none ∧
    create_message dbUsers 1 none "hi" ([2] ++ 7 :: []) 10 20 5 =
      (.error (.http 404 ("Recipient with ID " ++ toString 7 ++ " not found.")), dbUsers) :=
  ⟨by decide, by decide, by decide,
   create_message_missing_recipient dbUsers 1 none "hi" [2] 7 [] 10 20 5
     (by decide) (by decide) (by decide)⟩

/-- C2: with a resolving sender and a non-empty recipient list whose ids all
resolve, `create_message` succeeds, returns the new Message, and commits —
in the same state transition as the Message row — exactly one delivery
record per element of the list, each with `read = false` and
`read_at = none`. -/
theorem create_message_success (db : DB) (sender_id : Nat)
    (subject : Option String) (content : String) (rids : List Nat)
    (mid fresh now : Nat)
    (hs : (findUserById db.users sender_id).isSome)
    (hne : rids ≠ [])
    (hr : ∀ r ∈ rids, (findUserById db.users r).isSome) :
    ∃ entries : List MessageRecipient,
      create_message db sender_id subject content rids mid fresh now =
        (.ok { id := mid, sender_id := sender_id, subject := subject,
               content := content, timestamp := now },
         { db with
           messages := db.messages ++
             [{ id := mid, sender_id := sender_id, subject := subject,
                content := content, timestamp := now }],
           message_recipients := db.message_recipients ++ entries }) ∧
      entries.length = rids.length ∧
      entries.map MessageRecipient.recipient_id = rids ∧
      ∀ e ∈ entries, e.message_id = mid ∧ e.read = false ∧ e.read_at = none := by
  obtain ⟨u, hu⟩ := Option.isSome_iff_exists.mp hs
  obtain ⟨entries, hok, hmap, hall⟩ :=
    insertRecipients_ok_of_all_found db.users mid rids hr fresh
  have hempty : rids.isEmpty = false := by
    cases rids with
    | nil => exact absurd rfl hne
    | cons a l => rfl
  refine ⟨entries, ?_, ?_, hmap, hall⟩
  · simp [create_message, hu, hempty, hok]
  · rw [← hmap]
    simp

/-- Witness for C2: Alice sends "hello" to Bob. -/
theorem create_message_success_witness :
    ((findUserById dbUsers.users 1).isSome = true) ∧
    (([2] : List Nat) ≠ []) ∧
    (∀ r ∈ [2], (findUserById dbUsers.users r).isSome) ∧
    (∃ entries : List MessageRecipient,
      create_message dbUsers 1 none "hello" [2] 10 20 5 =
        (.ok { id := 10, sender_id := 1, subject := none,
               content := "hello", timestamp := 5 },
         { dbUsers with
           messages := dbUsers.messages ++
             [{ id := 10, sender_id := 1, subject := none,
                content := "hello", timestamp := 5 }],
           message_recipients := dbUsers.message_recipients ++ entries }) ∧
      entries.length = [2].length ∧
      entries.map MessageRecipient.recipient_id = [2] ∧
      ∀ e ∈ entries, e.message_id = 10 ∧ e.read = false ∧ e.read_at = none) :=
  ⟨by decide, by decide, by decide,
   create_message_success dbUsers 1 none "hello" [2] 10 20 5
     (by decide) (by decide) (by decide)⟩

/-- C3 counterexample: in the reachable state where Alice sent one message
listing Bob twice, the store holds two delivery records for the pair
(message 10, user 2) — not exactly one. -/
theorem duplicate_recipient_yields_two_records :
    Reachable dbDup ∧
    (dbDup.message_recipients.filter
      (fun r => r.message_id == 10 && r.recipient_id == 2)).length = 2 := by
  constructor
  · exact Reachable.step (Reachable.step (Reachable.step Reachable.init
      (Step.createUser DB.empty "alice@example.com" "Alice" 1 0))
      (Step.createUser _ "bob@example.com" "Bob" 2 0))
      (Step.createMessage _ 1 none "hello" [2, 2] 10 20 5)
  · decide

/-- C3 amended: `create_message` creates one delivery record per *element* of
the recipient list with no deduplication and no uniqueness on the
(message, recipient) pair: when the sender and all listed recipients resolve
and the new message id is fresh, the number of delivery records for
(mid, rid) in the resulting store equals the number of occurrences of `rid`
in the list. -/
theorem create_message_records_per_occurrence (db : DB) (sender_id : Nat)
    (subject : Option String) (content : String) (rids : List Nat)
    (mid fresh now rid : Nat)
    (hs : (findUserById db.users sender_id).isSome)
    (hne : rids ≠ [])
    (hr : ∀ r ∈ rids, (findUserById db.users r).isSome)
    (hfreshmid : ∀ r ∈ db.message_recipients, r.message_id ≠ mid) :
    ((create_message db sender_id subject content rids mid fresh
        now).2.message_recipients.filter
      (fun r => r.message_id == mid && r.recipient_id == rid)).length
      = rids.count rid := by
  obtain ⟨u, hu⟩ := Option.isSome_iff_exists.mp hs
  obtain ⟨entries, hok, hmap, hall⟩ :=
    insertRecipients_ok_of_all_found db.users mid rids hr fresh
  have hempty : rids.isEmpty = false := by
    cases rids with
    | nil => exact absurd rfl hne
    | cons a l => rfl
  have hstate : (create_message db sender_id subject content rids mid fresh
      now).2.message_recipients = db.message_recipients ++ entries := by
    simp [create_message, hu, hempty, hok]
  rw [hstate, List.filter_append, List.length_append]
  have hold : db.message_recipients.filter
      (fun r => r.message_id == mid && r.recipient_id == rid) = [] := by
    rw [List.filter_eq_nil_iff]
    intro r hrr
    simp [hfreshmid r hrr]
  rw [hold]
  have hcnt := length_filter_eq_count mid rid entries (fun e he => (hall e he).1)
  rw [hmap] at hcnt
  simp [hcnt]

/-- Witness for C3's amended statement: the recipient list [2, 2] yields
`[2, 2].count 2 = 2` delivery records for (10, 2). -/
theorem create_message_records_per_occurrence_witness :
    ((findUserById dbUsers.users 1).isSome = true) ∧
    (([2, 2] : List Nat) ≠ []) ∧
    (∀ r ∈ [2, 2], (findUserById dbUsers.users r).isSome) ∧
    (∀ r ∈ dbUsers.message_recipients, r.message_id ≠ 10) ∧
    ((create_message dbUsers 1 none "hello" [2, 2] 10 20
        5).2.message_recipients.filter
      (fun r => r.message_id == 10 && r.recipient_id == 2)).length = [2, 2].count 2 :=
  ⟨by decide, by decide, by decide, by decide,
   create_message_records_per_occurrence dbUsers 1 none "hello" [2, 2] 10 20 5 2
     (by decide) (by decide) (by decide) (by decide)⟩

/-- C7: in every reachable state, each delivery record has `read_at` set
exactly when `read` is true; and no public request ever reverses a read
record: once `read` is true, any step leaves that record — its `read` flag
and its original `read_at` — exactly as it was. -/
theorem read_flag_read_at_invariant (db db' : DB)
    (hreach : Reachable db) (hstep : Step db db') :
    (∀ r ∈ db.message_recipients, r.read_at.isSome = r.read) ∧
    (∀ i e, db.message_recipients.find? (fun r => r.id == i) = some e →
      e.read = true →
      db'.message_recipients.find? (fun r => r.id == i) = some e) := by
  constructor
  · clear hstep
    induction hreach with
    | init => intro r hr; exact absurd hr (by simp [DB.empty])
    | step hr hs ih => exact step_preserves_read_iff hs ih
  · intro i e hfind hread
    cases hstep with
    | createUser email name nid now =>
      rcases create_user_state_cases db email name nid now with hc | hc <;>
        rw [hc] <;> exact hfind
    | createMessage sid subj content rids mid fresh now =>
      rcases create_message_state_cases db sid subj content rids mid fresh now with
        hc | ⟨hsender, entries, hc, hall⟩
      · rw [hc]
        exact hfind
      · rw [hc]
        exact find?_append_left _ entries hfind
    | markRead eid now =>
      rcases mark_state_cases db eid now with hc | ⟨e2, hfind2, hread2, hc⟩
      · rw [hc]
        exact hfind
      · rw [hc]
        by_cases hie : i = eid
        · subst hie
          rw [hfind] at hfind2
          cases hfind2
          rw [hread] at hread2
          exact absurd hread2 (by simp)
        · refine find?_map_update_ne db.message_recipients i eid _ hfind hie ?_
          have h2 := List.find?_some hfind2
          simpa using h2
    | readUser j =>
      rw [read_user_frame]
      exact hfind
    | readUsers sk l =>
      rw [read_users_frame]
      exact hfind
    | readMessage j =>
      rw [read_message_frame]
      exact hfind
    | sentMessages j =>
      rw [get_sent_messages_frame]
      exact hfind
    | inbox j =>
      rw [get_inbox_messages_frame]
      exact hfind
    | unreadInbox j =>
      rw [get_unread_inbox_messages_frame]
      exact hfind
    | recipientStatus j =>
      rw [get_message_recipient_frame]
      exact hfind

/-- Witness for C7 at the reachable marked store, stepping with a second
mark-read request. -/
theorem read_flag_read_at_invariant_witness :
    (∀ r ∈ dbRead.message_recipients, r.read_at.isSome = r.read) ∧
    (∀ i e, dbRead.message_recipients.find? (fun r => r.id == i) = some e →
      e.read = true →
      (mark_message_as_read dbRead 20 11).2.message_recipients.find?
        (fun r => r.id == i) = some e) :=
  read_flag_read_at_invariant dbRead (mark_message_as_read dbRead 20 11).2
    dbRead_reachable (Step.markRead dbRead 20 11)

/-- C8: in every reachable state, for every existing user the inbox endpoint
succeeds with some item list and the unread-inbox endpoint returns exactly
those items whose delivery record has `read = false` — it excludes every
record marked read and keeps all others addressed to that user. -/
theorem unread_inbox_is_filtered_inbox (db : DB) (u : Nat)
    (hreach : Reachable db) (hu : (findUserById db.users u).isSome) :
    ∃ items : List MessageInboxItem,
      get_inbox_messages db u = (.ok items, db) ∧
      get_unread_inbox_messages db u =
        (.ok (items.filter (fun i => i.read == false)), db) := by
  obtain ⟨uu, huu⟩ := Option.isSome_iff_exists.mp hu
  have hsenders := reachable_senders_exist hreach
  obtain ⟨items, hitems⟩ := buildInboxItems_ok_of_senders db.users (joinInbox db u)
    (fun p hp => hsenders p.1 (joinInbox_mem_messages db u p hp))
  refine ⟨items, ?_, ?_⟩
  · simp [get_inbox_messages, huu, hitems]
  · have hfilter := buildInboxItems_filter_read db.users (joinInbox db u) items hitems
    simp only [beq_false] at hfilter
    simp [get_unread_inbox_messages, huu, joinInboxUnread_eq_filter, hfilter]

/-- Witness for C8 on the reachable marked store and user 2. -/
theorem unread_inbox_is_filtered_inbox_witness :
    ∃ items : List MessageInboxItem,
      get_inbox_messages dbRead 2 = (.ok items, dbRead) ∧
      get_unread_inbox_messages dbRead 2 =
        (.ok (items.filter (fun i => i.read == false)), dbRead) :=
  unread_inbox_is_filtered_inbox dbRead 2 dbRead_reachable (by decide)

/-- C5 (what the code does at the failing input): on `dbDangling`, whose
message 10 carries sender id 99 that resolves to no user while user 2
exists, the inbox endpoint for user 2 fails with the `sender` validation
error — the handler computes a `None` sender but the response schema
requires `sender : User`, so the projection raises instead of emitting a
null sender. -/
theorem inbox_with_dangling_sender_raises :
    get_inbox_messages dbDangling 2 =
      (.error (.validationError "sender"), dbDangling) := rfl

end MessagingApp
